import Mathlib

/-!
Shallow embedding of `src/monai/deploy/runner/main.py`, the MONAI Application
Runner launcher: a three-stage pipeline (dependency verification, manifest
fetch, application execution) driving an external container runtime.

Python effects are made explicit:
* `Env` holds the external world the launcher observes: whether docker is on
  the search path, whether the image resolves, the exit code and console
  output the runtime produces for a given command string, the contents of the
  two manifest files the image writes, and the behaviour of the JSON parser.
* `World` is the mutable host state threaded through the run: the set of
  live temporary directories, the ordered list of docker commands actually
  invoked, the console lines emitted, and the error lines logged.
* Fallible Python code is embedded into `PyResult`: `.ok` for a normal
  return, `.exn` for an uncaught exception propagating out of the function.
  `sys.exit()` raises `SystemExit` with code `none`; the resulting process
  exit status is computed by `processExitStatus` (Python exits with status 0
  for `SystemExit(None)` and status 1 for any other uncaught exception).

The helpers `runCmd`, `runCmdQuietly` and `verify_image` are imported by
the source from a `utils` module that is not part of the sources; they are
modelled from the spec where noted.
-/

namespace MAR

/-- Python values produced by `json.loads`: strings, numbers, booleans,
null, arrays and objects (dicts with string keys, in insertion order). -/
inductive JValue where
  | str (s : String)
  | num (n : Int)
  | bool (b : Bool)
  | null
  | arr (xs : List JValue)
  | obj (fields : List (String × JValue))

/-- Python exceptions that the embedded code can raise. -/
inductive PyExn where
  | keyError (k : String)
  | typeError
  | fileNotFoundError (path : String)
  | jsonDecodeError
  | systemExit (code : Option Int)
deriving DecidableEq

/-- Outcome of running a Python function: a normal return or an uncaught
exception propagating to the caller. -/
inductive PyResult (α : Type) where
  | ok (a : α)
  | exn (e : PyExn)

/-- Process exit status of the interpreter given the outcome of `main()`:
a normal return exits 0, `sys.exit()` (i.e. `SystemExit(None)`) exits 0,
`sys.exit(c)` with an integer exits `c`, and any other uncaught exception
prints a traceback and exits 1. -/
def processExitStatus : PyResult Unit → Int
  | .ok _ => 0
  | .exn (.systemExit none) => 0
  | .exn (.systemExit (some c)) => c
  | .exn _ => 1

/-- Whether the outcome is an uncaught exception. -/
def isExn {α : Type} : PyResult α → Bool
  | .ok _ => false
  | .exn _ => true

/-- Whether the outcome is an uncaught `FileNotFoundError`. -/
def isFileNotFound {α : Type} : PyResult α → Bool
  | .exn (.fileNotFoundError _) => true
  | _ => false

/-- Python subscripting `v[k]` with a string key: returns the field of a
dict, raises `KeyError` when the key is absent, and raises `TypeError`
when the value is not a dict. -/
def JValue.getItem : JValue → String → PyResult JValue
  | .obj fields, k =>
    match fields.lookup k with
    | some v => .ok v
    | none => .exn (.keyError k)
  | _, _ => .exn .typeError

/-- Python `str()` as used by `str.format` on a JSON value. -/
def pyStr : JValue → String
  | .str s => s
  | .num n => toString n
  | .bool b => if b then "True" else "False"
  | .null => "None"
  | .arr _ => "[...]"
  | .obj _ => "\x7b...\x7d"

/-- The external world observed by one launcher invocation. -/
structure Env where
  /-- `shutil.which("docker")` resolves to an executable. -/
  dockerInstalled : Bool
  /-- Modelled from the spec: `verify_image` from the missing `utils`
  module — the image is already present locally or can be pulled. -/
  imageAvailable : String → Bool
  /-- Exit code the container runtime returns for a given command string. -/
  exitCode : String → Int
  /-- Console byte stream a command produces when its output is inherited. -/
  cmdOutput : String → List String
  /-- Content of `app.json` the image writes into the export mount
  (`none` when the image did not write the file). -/
  appJsonText : Option String
  /-- Content of `pkg.json` the image writes into the export mount. -/
  pkgJsonText : Option String
  /-- The external JSON library: `json.loads`, `none` on malformed input. -/
  jsonLoads : String → Option JValue

/-- Host-side mutable state threaded through the launcher. -/
structure World where
  /-- Temporary directories currently existing on the host. -/
  tempDirs : List String
  /-- Counter feeding fresh temporary-directory names. -/
  nextId : Nat
  /-- Docker commands invoked so far, in order. -/
  runs : List String
  /-- Console lines emitted so far. -/
  console : List String
  /-- Error lines logged so far (also part of the console). -/
  errors : List String

/-- Parsed command-line arguments (`argparse.Namespace`), with the two
directory arguments already validated by `valid_dir_path`. -/
structure Args where
  map : String
  input_dir : String
  output_dir : String
  verbose : Bool
  quiet : Bool

/-- Name of the fresh temporary directory `tempfile.TemporaryDirectory()`
hands out for counter value `n`. -/
def tempName (n : Nat) : String := "/tmp/tmp" ++ toString n

/-- Emit a line at INFO level (always shown). -/
def logging_info (w : World) (msg : String) : World :=
  { w with console := w.console ++ [msg] }

/-- Emit a line at DEBUG level: shown only in verbose mode. The message
argument is evaluated by the caller regardless of verbosity, exactly as in
Python. -/
def logging_debug (verbose : Bool) (w : World) (msg : String) : World :=
  if verbose then { w with console := w.console ++ [msg] } else w

/-- Emit a line at ERROR level; recorded both on the console and in the
error log. -/
def logging_error (w : World) (msg : String) : World :=
  { w with console := w.console ++ [msg], errors := w.errors ++ [msg] }

/-- Modelled from the spec: `runCmd` from the missing `utils` module —
invokes the external command, lets its console stream through, blocks
until it terminates, and returns its exit code. -/
def runCmd (env : Env) (cmd : String) (w : World) : Int × World :=
  (env.exitCode cmd,
   { w with runs := w.runs ++ [cmd], console := w.console ++ env.cmdOutput cmd })

/-- Modelled from the spec: `runCmdQuietly` from the missing `utils`
module — invokes the external command with its console stream suppressed,
shows the waiting message instead, and returns the same exit code. -/
def runCmdQuietly (env : Env) (cmd : String) (waiting_msg : String) (w : World) :
    Int × World :=
  (env.exitCode cmd,
   { w with runs := w.runs ++ [cmd], console := w.console ++ [waiting_msg] })

/-- `Path.read_text()`: the file content when the file exists, an uncaught
`FileNotFoundError` otherwise. -/
def read_text (content : Option String) (path : String) : PyResult String :=
  match content with
  | some s => .ok s
  | none => .exn (.fileNotFoundError path)

/-- `json.loads`: the parsed value, or an uncaught `JSONDecodeError` when
the text is malformed. -/
def json_loads (env : Env) (s : String) : PyResult JValue :=
  match env.jsonLoads s with
  | some v => .ok v
  | none => .exn .jsonDecodeError

/-- `with tempfile.TemporaryDirectory() as info_dir:` — creates a fresh
temporary directory, runs the body, and removes the directory again on
every exit path (normal or exceptional) before returning. -/
def withTempDir {α : Type} (w : World) (body : String → World → α × World) :
    α × World :=
  let name := tempName w.nextId
  let w1 := { w with tempDirs := name :: w.tempDirs, nextId := w.nextId + 1 }
  let (a, w2) := body name w1
  (a, { w2 with tempDirs := w2.tempDirs.erase name })

/-- The command string of `fetch_map_manifest`:
`docker run --rm -it -v <info_dir>:/var/run/monai/export/config <map_name>`. -/
def manifest_cmd (info_dir map_name : String) : String :=
  "docker run --rm -it -v " ++ info_dir ++ ":/var/run/monai/export/config " ++ map_name

/-- The command string of `run_app`:
`docker run --rm -it -v <input_dir>:<in_path> -v <output_dir>:<out_path> <map_name>`. -/
def app_cmd (input_dir in_path output_dir out_path map_name : String) : String :=
  "docker run --rm -it -v " ++ input_dir ++ ":" ++ in_path ++ " -v " ++
    output_dir ++ ":" ++ out_path ++ " " ++ map_name

/-- `fetch_map_manifest(map_name)`: runs the image with a temporary
directory bound to the export mount; on a non-zero return code returns
`({}, returncode)` at once; otherwise reads `app.json` and `pkg.json`,
logs both at DEBUG level, parses `app.json` and returns the parsed
manifest with the (zero) return code. Read and parse failures propagate
as uncaught exceptions. -/
def fetch_map_manifest (env : Env) (verbose : Bool) (map_name : String) (w : World) :
    PyResult (JValue × Int) × World :=
  let w := logging_info w "\nReading MONAI App Package manifest..."
  withTempDir w (fun info_dir w =>
    let cmd := manifest_cmd info_dir map_name
    let (returncode, w) := runCmd env cmd w
    if returncode ≠ 0 then
      (.ok (JValue.obj [], returncode), w)
    else
      match read_text env.appJsonText (info_dir ++ "/app.json") with
      | .exn e => (.exn e, w)
      | .ok appText =>
        let w := logging_debug verbose w
          "-------------------application manifest-------------------"
        let w := logging_debug verbose w appText
        let w := logging_debug verbose w "----------------------------------------------\n"
        match read_text env.pkgJsonText (info_dir ++ "/pkg.json") with
        | .exn e => (.exn e, w)
        | .ok pkgText =>
          let w := logging_debug verbose w
            "-------------------package manifest-------------------"
          let w := logging_debug verbose w pkgText
          let w := logging_debug verbose w "----------------------------------------------\n"
          match read_text env.appJsonText (info_dir ++ "/app.json") with
          | .exn e => (.exn e, w)
          | .ok appText2 =>
            match json_loads env appText2 with
            | .exn e => (.exn e, w)
            | .ok app_info => (.ok (app_info, returncode), w))

/-- `run_app(map_name, input_dir, output_dir, app_info, quiet)`: builds the
run command from `app_info['input']['path']` and `app_info['output']['path']`
(the subscript evaluations raise before any command is run when a field is
missing), then invokes it quietly or not per the flag. -/
def run_app (env : Env) (map_name input_dir output_dir : String)
    (app_info : JValue) (quiet : Bool) (w : World) : PyResult Int × World :=
  match app_info.getItem "input" with
  | .exn e => (.exn e, w)
  | .ok inObj =>
    match inObj.getItem "path" with
    | .exn e => (.exn e, w)
    | .ok inPath =>
      match app_info.getItem "output" with
      | .exn e => (.exn e, w)
      | .ok outObj =>
        match outObj.getItem "path" with
        | .exn e => (.exn e, w)
        | .ok outPath =>
          let cmd := app_cmd input_dir (pyStr inPath) output_dir (pyStr outPath) map_name
          if quiet then
            let (c, w) := runCmdQuietly env cmd "Running MONAI Application..." w
            (.ok c, w)
          else
            let (c, w) := runCmd env cmd w
            (.ok c, w)

/-- `dependency_verification(map_name)`: false when docker is not on the
search path, false when the image cannot be resolved, true otherwise.
Reports each failing check with an error line; never raises. -/
def dependency_verification (env : Env) (map_name : String) (w : World) :
    Bool × World :=
  let w := logging_info w "Checking dependencies..."
  let w := logging_info w "--> Verifying if \"docker\" is installed...\n"
  if env.dockerInstalled then
    let w := logging_info w ("--> Verifying if \"" ++ map_name ++ "\" is available...\n")
    if env.imageAvailable map_name then
      (true, w)
    else
      (false, logging_error w "ERROR: Unable to fetch required image.")
  else
    (false, logging_error w "ERROR: \"docker\" not installed, please install docker.")

/-- `main()`: the pipeline glue. After argument parsing it verifies
dependencies, fetches the manifest, and runs the application; on each
failed stage it logs an error and calls `sys.exit()` with no argument. -/
def main (env : Env) (args : Args) (w : World) : PyResult Unit × World :=
  let w := { w with console := w.console ++ ["<class argparse.Namespace>"] }
  let (ok, w) := dependency_verification env args.map w
  if ok then
    match fetch_map_manifest env args.verbose args.map w with
    | (.exn e, w) => (.exn e, w)
    | (.ok (app_info, returncode), w) =>
      if returncode ≠ 0 then
        let w := logging_error w "ERROR: Failed to fetch MAP manifest. Aborting..."
        (.exn (.systemExit none), w)
      else
        match run_app env args.map args.input_dir args.output_dir app_info args.quiet w with
        | (.exn e, w) => (.exn e, w)
        | (.ok rc, w) =>
          if rc ≠ 0 then
            let w := logging_error w
              ("\nERROR: MONAI Application \"" ++ args.map ++ "\" failed.")
            (.exn (.systemExit none), w)
          else
            (.ok (), w)
  else
    let w := logging_error w "Aborting..."
    (.exn (.systemExit none), w)

/-! Small projection lemmas: the logging helpers only touch the console and
error log, never the temporary directories, the id counter or the run list. -/

@[simp] theorem logging_info_tempDirs (w : World) (m : String) :
    (logging_info w m).tempDirs = w.tempDirs := rfl

@[simp] theorem logging_info_nextId (w : World) (m : String) :
    (logging_info w m).nextId = w.nextId := rfl

@[simp] theorem logging_info_runs (w : World) (m : String) :
    (logging_info w m).runs = w.runs := rfl

@[simp] theorem logging_debug_tempDirs (v : Bool) (w : World) (m : String) :
    (logging_debug v w m).tempDirs = w.tempDirs := by
  unfold logging_debug; split <;> rfl

@[simp] theorem logging_debug_nextId (v : Bool) (w : World) (m : String) :
    (logging_debug v w m).nextId = w.nextId := by
  unfold logging_debug; split <;> rfl

@[simp] theorem logging_debug_runs (v : Bool) (w : World) (m : String) :
    (logging_debug v w m).runs = w.runs := by
  unfold logging_debug; split <;> rfl

@[simp] theorem logging_error_tempDirs (w : World) (m : String) :
    (logging_error w m).tempDirs = w.tempDirs := rfl

@[simp] theorem logging_error_nextId (w : World) (m : String) :
    (logging_error w m).nextId = w.nextId := rfl

@[simp] theorem logging_error_runs (w : World) (m : String) :
    (logging_error w m).runs = w.runs := rfl

/-- Initial host state: no temporary directory, nothing run, nothing printed. -/
def w0 : World :=
  { tempDirs := [], nextId := 0, runs := [], console := [], errors := [] }

/-- Default parsed arguments used by concrete scenarios. -/
def argsDefault : Args :=
  { map := "map-image:latest", input_dir := "/home/user/in",
    output_dir := "/home/user/out", verbose := false, quiet := false }

/-- An environment where docker is not on the search path and nothing else
is available. -/
def envBare : Env :=
  { dockerInstalled := false, imageAvailable := fun _ => false,
    exitCode := fun _ => 0, cmdOutput := fun _ => [],
    appJsonText := none, pkgJsonText := none, jsonLoads := fun _ => none }

/-- C1: the claim says every failed stage makes the process exit with a
non-zero status. The code instead calls `sys.exit()` with no argument on
every failure path, which exits with status 0. At the concrete failing
input where docker is absent, `main` logs the error lines yet the process
exit status is 0, contradicting the claim. -/
theorem c1_stage_failure_exits_with_status_zero :
    processExitStatus (main envBare argsDefault w0).1 = 0 ∧
    (main envBare argsDefault w0).2.errors =
      ["ERROR: \"docker\" not installed, please install docker.", "Aborting..."] := by
  constructor <;> rfl

/-- The subscript chain `app_info[k]['path']` evaluated while formatting the
application run command. -/
def pathLookup (v : JValue) (k : String) : PyResult JValue :=
  match v.getItem k with
  | .exn e => .exn e
  | .ok x => x.getItem "path"

/-- C2: for every application manifest on which looking up `input.path` or
`output.path` raises, `run_app` propagates that exception raised while the
command string is being built, and no container run is invoked. -/
theorem c2_missing_path_no_container_run
    (env : Env) (m i o : String) (a : JValue) (q : Bool) (w : World)
    (h : isExn (pathLookup a "input") = true ∨ isExn (pathLookup a "output") = true) :
    isExn (run_app env m i o a q w).1 = true ∧ (run_app env m i o a q w).2.runs = w.runs := by
  cases hin : a.getItem "input" with
  | exn e => simp [run_app, hin, isExn]
  | ok inObj =>
    cases hip : inObj.getItem "path" with
    | exn e => simp [run_app, hin, hip, isExn]
    | ok inPath =>
      cases hout : a.getItem "output" with
      | exn e => simp [run_app, hin, hip, hout, isExn]
      | ok outObj =>
        cases hop : outObj.getItem "path" with
        | exn e => simp [run_app, hin, hip, hout, hop, isExn]
        | ok outPath =>
          exfalso
          rcases h with h | h <;>
            simp [pathLookup, hin, hip, hout, hop, isExn] at h

/-- Witness for C2 at the empty manifest. -/
theorem c2_missing_path_no_container_run_witness :
    isExn (run_app envBare "map-image:latest" "/home/user/in" "/home/user/out"
      (JValue.obj []) false w0).1 = true ∧
    (run_app envBare "map-image:latest" "/home/user/in" "/home/user/out"
      (JValue.obj []) false w0).2.runs = w0.runs :=
  c2_missing_path_no_container_run envBare "map-image:latest" "/home/user/in"
    "/home/user/out" (JValue.obj []) false w0 (Or.inl rfl)

/-- C3: when the manifest-export run returns 0 but `app.json` holds
malformed JSON, `fetch_map_manifest` raises the JSON decode error: it never
returns normally, in particular never as a success with an empty manifest
and return code zero. -/
theorem c3_parse_failure_is_raised_not_swallowed
    (env : Env) (v : Bool) (m s t : String) (w : World)
    (h0 : env.exitCode (manifest_cmd (tempName w.nextId) m) = 0)
    (ha : env.appJsonText = some s)
    (hp : env.pkgJsonText = some t)
    (hj : env.jsonLoads s = none) :
    (fetch_map_manifest env v m w).1 = PyResult.exn PyExn.jsonDecodeError := by
  simp [fetch_map_manifest, withTempDir, logging_info, logging_debug, runCmd,
    read_text, json_loads, h0, ha, hp, hj]

/-- Concrete environment for C3: export run succeeds, `app.json` exists but
is not valid JSON. -/
def envParseFail : Env :=
  { dockerInstalled := true, imageAvailable := fun _ => true,
    exitCode := fun _ => 0, cmdOutput := fun _ => [],
    appJsonText := some "not valid json", pkgJsonText := some "pkg",
    jsonLoads := fun _ => none }

/-- Witness for C3. -/
theorem c3_parse_failure_is_raised_not_swallowed_witness :
    (fetch_map_manifest envParseFail false "map-image:latest" w0).1 =
      PyResult.exn PyExn.jsonDecodeError :=
  c3_parse_failure_is_raised_not_swallowed envParseFail false "map-image:latest"
    "not valid json" "pkg" w0 rfl rfl rfl rfl

/-- C4: on every exit path of `fetch_map_manifest` — non-zero return code,
read failure, parse failure, or normal return — the temporary export
directory created by the call has been removed again when it returns. -/
theorem c4_tempdir_removed_on_all_paths (env : Env) (v : Bool) (m : String) (w : World) :
    (fetch_map_manifest env v m w).2.tempDirs = w.tempDirs := by
  by_cases h0 : env.exitCode (manifest_cmd (tempName w.nextId) m) = 0
  · cases ha : env.appJsonText with
    | none =>
      simp [fetch_map_manifest, withTempDir, runCmd, read_text, h0, ha,
        List.erase_cons_head]
    | some s =>
      cases hp : env.pkgJsonText with
      | none =>
        simp [fetch_map_manifest, withTempDir, runCmd, read_text, h0, ha, hp,
          List.erase_cons_head]
      | some t =>
        cases hj : env.jsonLoads s with
        | none =>
          simp [fetch_map_manifest, withTempDir, runCmd, read_text, json_loads,
            h0, ha, hp, hj, List.erase_cons_head]
        | some a =>
          simp [fetch_map_manifest, withTempDir, runCmd, read_text, json_loads,
            h0, ha, hp, hj, List.erase_cons_head]
  · simp [fetch_map_manifest, withTempDir, runCmd, h0, List.erase_cons_head]

/-- C5: when the manifest-export run returns a non-zero code,
`fetch_map_manifest` returns the empty manifest together with that code at
once; the result does not depend on the manifest files, which may be
absent altogether. -/
theorem c5_nonzero_code_early_return (env : Env) (v : Bool) (m : String) (w : World)
    (h : env.exitCode (manifest_cmd (tempName w.nextId) m) ≠ 0) :
    (fetch_map_manifest env v m w).1 =
      PyResult.ok (JValue.obj [], env.exitCode (manifest_cmd (tempName w.nextId) m)) := by
  simp [fetch_map_manifest, withTempDir, logging_info, runCmd, h]

/-- Concrete environment for C5: the export run fails with code 125 and no
manifest file exists. -/
def envRunFails : Env :=
  { dockerInstalled := true, imageAvailable := fun _ => true,
    exitCode := fun _ => 125, cmdOutput := fun _ => [],
    appJsonText := none, pkgJsonText := none, jsonLoads := fun _ => none }

/-- Witness for C5. -/
theorem c5_nonzero_code_early_return_witness :
    (fetch_map_manifest envRunFails false "map-image:latest" w0).1 =
      PyResult.ok (JValue.obj [],
        envRunFails.exitCode (manifest_cmd (tempName w0.nextId) "map-image:latest")) :=
  c5_nonzero_code_early_return envRunFails false "map-image:latest" w0 (by decide)

/-- C6: when the docker executable is not on the search path or the package
image cannot be resolved, `dependency_verification` returns false, `main`
aborts, and no docker command is ever invoked — in particular the manifest
fetch stage is never attempted. -/
theorem c6_verify_false_blocks_pipeline (env : Env) (args : Args) (w : World)
    (h : env.dockerInstalled = false ∨ env.imageAvailable args.map = false) :
    (dependency_verification env args.map w).1 = false ∧
    (main env args w).2.runs = w.runs ∧
    isExn (main env args w).1 = true := by
  rcases h with h | h
  · refine ⟨?_, ?_, ?_⟩ <;>
      simp [main, dependency_verification, logging_info, logging_error, h, isExn]
  · cases hd : env.dockerInstalled <;>
      refine ⟨?_, ?_, ?_⟩ <;>
      simp [main, dependency_verification, logging_info, logging_error, h, hd, isExn]

/-- Witness for C6 in the environment without docker. -/
theorem c6_verify_false_blocks_pipeline_witness :
    (dependency_verification envBare argsDefault.map w0).1 = false ∧
    (main envBare argsDefault w0).2.runs = w0.runs ∧
    isExn (main envBare argsDefault w0).1 = true :=
  c6_verify_false_blocks_pipeline envBare argsDefault w0 (Or.inl rfl)

/-- C7: with package reference, directories and manifest fixed, `run_app`
returns the same outcome (and invokes the same container runs) whether the
quiet flag is on or off; only the console stream may differ. -/
theorem c7_quiet_flag_preserves_exit_code (env : Env) (m i o : String) (a : JValue)
    (w : World) :
    (run_app env m i o a true w).1 = (run_app env m i o a false w).1 ∧
    (run_app env m i o a true w).2.runs = (run_app env m i o a false w).2.runs := by
  cases hin : a.getItem "input" with
  | exn e => simp [run_app, hin]
  | ok inObj =>
    cases hip : inObj.getItem "path" with
    | exn e => simp [run_app, hin, hip]
    | ok inPath =>
      cases hout : a.getItem "output" with
      | exn e => simp [run_app, hin, hip, hout]
      | ok outObj =>
        cases hop : outObj.getItem "path" with
        | exn e => simp [run_app, hin, hip, hout, hop]
        | ok outPath => simp [run_app, runCmd, runCmdQuietly, hin, hip, hout, hop]

/-- C10: when the export run returns code zero, both `app.json` and
`pkg.json` are read unconditionally — if either file is absent,
`fetch_map_manifest` raises `FileNotFoundError` instead of returning a
(manifest, code) pair, whatever the verbosity setting. -/
theorem c10_pkg_json_is_hidden_precondition (env : Env) (v : Bool) (m : String)
    (w : World)
    (h0 : env.exitCode (manifest_cmd (tempName w.nextId) m) = 0)
    (h : env.appJsonText = none ∨ env.pkgJsonText = none) :
    isFileNotFound (fetch_map_manifest env v m w).1 = true := by
  rcases h with h | h
  · simp [fetch_map_manifest, withTempDir, runCmd, read_text, h0, h, isFileNotFound]
  · cases ha : env.appJsonText with
    | none =>
      simp [fetch_map_manifest, withTempDir, runCmd, read_text, h0, ha, isFileNotFound]
    | some s =>
      simp [fetch_map_manifest, withTempDir, runCmd, read_text, h0, h, ha, isFileNotFound]

/-- Concrete environment for C10: export run succeeds, `app.json` exists
and parses, but the diagnostic-only `pkg.json` is missing. -/
def envNoPkg : Env :=
  { dockerInstalled := true, imageAvailable := fun _ => true,
    exitCode := fun _ => 0, cmdOutput := fun _ => [],
    appJsonText := some "valid app json", pkgJsonText := none,
    jsonLoads := fun _ => some (JValue.obj []) }

/-- Witness for C10. -/
theorem c10_pkg_json_is_hidden_precondition_witness :
    isFileNotFound (fetch_map_manifest envNoPkg false "map-image:latest" w0).1 = true :=
  c10_pkg_json_is_hidden_precondition envNoPkg false "map-image:latest" w0 rfl (Or.inr rfl)

/-- The manifest of end-to-end scenario A:
`\x7b"input":\x7b"path":"/in"\x7d,"output":\x7b"path":"/out"\x7d\x7d`. -/
def manifestInOut : JValue :=
  JValue.obj [("input", JValue.obj [("path", JValue.str "/in")]),
              ("output", JValue.obj [("path", JValue.str "/out")])]

/-- C9: runtime present, image present, manifest declaring `/in` and `/out`,
application run exiting 0: the launcher performs the manifest-export run and
then exactly one application run binding the host input directory to `/in`
and the host output directory to `/out`, and the process exits with 0. -/
theorem c9_scenario_a_binds_and_exits_zero (env : Env) (args : Args) (w : World)
    (s t : String)
    (hd : env.dockerInstalled = true)
    (hi : env.imageAvailable args.map = true)
    (h0 : env.exitCode (manifest_cmd (tempName w.nextId) args.map) = 0)
    (ha : env.appJsonText = some s)
    (hp : env.pkgJsonText = some t)
    (hj : env.jsonLoads s = some manifestInOut)
    (hr : env.exitCode (app_cmd args.input_dir "/in" args.output_dir "/out" args.map) = 0) :
    processExitStatus (main env args w).1 = 0 ∧
    (main env args w).2.runs =
      w.runs ++ [manifest_cmd (tempName w.nextId) args.map,
                 app_cmd args.input_dir "/in" args.output_dir "/out" args.map] := by
  have h1 : manifestInOut.getItem "input" =
      PyResult.ok (JValue.obj [("path", JValue.str "/in")]) := rfl
  have h2 : manifestInOut.getItem "output" =
      PyResult.ok (JValue.obj [("path", JValue.str "/out")]) := rfl
  have h3 : (JValue.obj [("path", JValue.str "/in")]).getItem "path" =
      PyResult.ok (JValue.str "/in") := rfl
  have h4 : (JValue.obj [("path", JValue.str "/out")]).getItem "path" =
      PyResult.ok (JValue.str "/out") := rfl
  cases hq : args.quiet <;>
    simp [main, dependency_verification, fetch_map_manifest, withTempDir, run_app,
      runCmd, runCmdQuietly, read_text, json_loads, logging_info,
      logging_error, pyStr, h1, h2, h3, h4, hd, hi, h0, ha, hp, hj, hr, hq,
      processExitStatus]

/-- Concrete environment for C9: everything present and succeeding, with the
scenario-A manifest. -/
def envScenarioA : Env :=
  { dockerInstalled := true, imageAvailable := fun _ => true,
    exitCode := fun _ => 0, cmdOutput := fun _ => ["container output"],
    appJsonText := some "scenario a app json", pkgJsonText := some "pkg json",
    jsonLoads := fun _ => some manifestInOut }

/-- Witness for C9. -/
theorem c9_scenario_a_binds_and_exits_zero_witness :
    processExitStatus (main envScenarioA argsDefault w0).1 = 0 ∧
    (main envScenarioA argsDefault w0).2.runs =
      w0.runs ++ [manifest_cmd (tempName w0.nextId) argsDefault.map,
                  app_cmd argsDefault.input_dir "/in" argsDefault.output_dir "/out"
                    argsDefault.map] :=
  c9_scenario_a_binds_and_exits_zero envScenarioA argsDefault w0
    "scenario a app json" "pkg json" rfl rfl rfl rfl rfl rfl rfl

/-! Composition lemmas used to track the docker invocations across the
pipeline. -/

@[simp] theorem dependency_verification_runs (env : Env) (m : String) (w : World) :
    (dependency_verification env m w).2.runs = w.runs := by
  unfold dependency_verification
  cases hd : env.dockerInstalled <;> cases hi : env.imageAvailable m <;>
    simp [hd, hi, logging_info, logging_error]

@[simp] theorem dependency_verification_nextId (env : Env) (m : String) (w : World) :
    (dependency_verification env m w).2.nextId = w.nextId := by
  unfold dependency_verification
  cases hd : env.dockerInstalled <;> cases hi : env.imageAvailable m <;>
    simp [hd, hi, logging_info, logging_error]

/-- Every call to `fetch_map_manifest` invokes the manifest-export command
exactly once, whatever the outcome. -/
theorem fetch_map_manifest_runs (env : Env) (v : Bool) (m : String) (w : World) :
    (fetch_map_manifest env v m w).2.runs =
      w.runs ++ [manifest_cmd (tempName w.nextId) m] := by
  by_cases h0 : env.exitCode (manifest_cmd (tempName w.nextId) m) = 0
  · cases ha : env.appJsonText with
    | none => simp [fetch_map_manifest, withTempDir, runCmd, read_text, h0, ha]
    | some s =>
      cases hp : env.pkgJsonText with
      | none => simp [fetch_map_manifest, withTempDir, runCmd, read_text, h0, ha, hp]
      | some t =>
        cases hj : env.jsonLoads s with
        | none =>
          simp [fetch_map_manifest, withTempDir, runCmd, read_text, json_loads,
            h0, ha, hp, hj]
        | some a =>
          simp [fetch_map_manifest, withTempDir, runCmd, read_text, json_loads,
            h0, ha, hp, hj]
  · simp [fetch_map_manifest, withTempDir, runCmd, h0]

/-- When `fetch_map_manifest` returns normally, the returned code is the
exit code of the manifest-export command. -/
theorem fetch_map_manifest_ok_code (env : Env) (v : Bool) (m : String) (w : World)
    (a : JValue) (c : Int)
    (h : (fetch_map_manifest env v m w).1 = PyResult.ok (a, c)) :
    c = env.exitCode (manifest_cmd (tempName w.nextId) m) := by
  by_cases h0 : env.exitCode (manifest_cmd (tempName w.nextId) m) = 0
  · rw [h0]
    cases ha : env.appJsonText with
    | none => simp [fetch_map_manifest, withTempDir, runCmd, read_text, h0, ha] at h
    | some s =>
      cases hp : env.pkgJsonText with
      | none =>
        simp [fetch_map_manifest, withTempDir, runCmd, read_text, h0, ha, hp] at h
      | some t =>
        cases hj : env.jsonLoads s with
        | none =>
          simp [fetch_map_manifest, withTempDir, runCmd, read_text, json_loads,
            h0, ha, hp, hj] at h
        | some b =>
          simp [fetch_map_manifest, withTempDir, runCmd, read_text, json_loads,
            h0, ha, hp, hj] at h
          exact h.2.symm
  · simp [fetch_map_manifest, withTempDir, runCmd, h0] at h
    exact h.2.symm

/-- `run_app` either raises while building the command, adding no run, or
performs exactly one application run. -/
theorem run_app_runs_shape (env : Env) (m i o : String) (a : JValue) (q : Bool)
    (w : World) :
    (run_app env m i o a q w).2.runs = w.runs ∨
    ∃ ip op, (run_app env m i o a q w).2.runs = w.runs ++ [app_cmd i ip o op m] := by
  cases hin : a.getItem "input" with
  | exn e => left; simp [run_app, hin]
  | ok inObj =>
    cases hip : inObj.getItem "path" with
    | exn e => left; simp [run_app, hin, hip]
    | ok inPath =>
      cases hout : a.getItem "output" with
      | exn e => left; simp [run_app, hin, hip, hout]
      | ok outObj =>
        cases hop : outObj.getItem "path" with
        | exn e => left; simp [run_app, hin, hip, hout, hop]
        | ok outPath =>
          right
          refine ⟨pyStr inPath, pyStr outPath, ?_⟩
          cases q <;> simp [run_app, runCmd, runCmdQuietly, hin, hip, hout, hop]

/-- C8: the pipeline is linear with no retries: a launcher invocation runs
either no docker command (verification failed), or exactly the
manifest-export run (fetch failed or raised, or the application stage
raised while building its command), or the manifest-export run followed by
exactly one application run — and the application run happens only when the
manifest-export run returned code 0. -/
theorem c8_pipeline_is_linear_no_retry (env : Env) (args : Args) (w : World) :
    (main env args w).2.runs = w.runs ∨
    (main env args w).2.runs = w.runs ++ [manifest_cmd (tempName w.nextId) args.map] ∨
    (∃ ip op,
      (main env args w).2.runs =
        w.runs ++ [manifest_cmd (tempName w.nextId) args.map,
                   app_cmd args.input_dir ip args.output_dir op args.map] ∧
      env.exitCode (manifest_cmd (tempName w.nextId) args.map) = 0) := by
  simp only [main]
  rcases hdv : dependency_verification env args.map
      { w with console := w.console ++ ["<class argparse.Namespace>"] } with ⟨ok, w1⟩
  have hw1runs : w1.runs = w.runs := by
    have h2 := congrArg Prod.snd hdv
    rw [show w1 = (dependency_verification env args.map
      { w with console := w.console ++ ["<class argparse.Namespace>"] }).2 from h2.symm]
    simp
  have hw1next : w1.nextId = w.nextId := by
    have h2 := congrArg Prod.snd hdv
    rw [show w1 = (dependency_verification env args.map
      { w with console := w.console ++ ["<class argparse.Namespace>"] }).2 from h2.symm]
    simp
  cases ok with
  | false => left; simp [hw1runs]
  | true =>
    dsimp only
    rw [if_pos rfl]
    rcases hf : fetch_map_manifest env args.verbose args.map w1 with ⟨r, w2⟩
    have hw2runs : w2.runs = w.runs ++ [manifest_cmd (tempName w.nextId) args.map] := by
      have h2 := congrArg Prod.snd hf
      rw [show w2 = (fetch_map_manifest env args.verbose args.map w1).2 from h2.symm,
        fetch_map_manifest_runs, hw1runs, hw1next]
    cases r with
    | exn e => right; left; simp [hw2runs]
    | ok p =>
      rcases p with ⟨a, c⟩
      dsimp only
      have hc : c = env.exitCode (manifest_cmd (tempName w.nextId) args.map) := by
        have h1 : (fetch_map_manifest env args.verbose args.map w1).1 =
            PyResult.ok (a, c) := by rw [hf]
        rw [← hw1next]
        exact fetch_map_manifest_ok_code env args.verbose args.map w1 a c h1
      by_cases hc0 : c = 0
      · rw [if_neg (by simp [hc0])]
        rcases hr : run_app env args.map args.input_dir args.output_dir a args.quiet w2
          with ⟨r2, w3⟩
        have hw3 := run_app_runs_shape env args.map args.input_dir args.output_dir a
          args.quiet w2
        rw [hr] at hw3
        dsimp only at hw3
        have hcode : env.exitCode (manifest_cmd (tempName w.nextId) args.map) = 0 := by
          rw [← hc]; exact hc0
        rcases hw3 with hw3 | ⟨ip, op, hw3⟩
        · right; left
          cases r2 with
          | exn e2 => simp [hw3, hw2runs]
          | ok rc2 =>
            dsimp only
            split <;> simp [hw3, hw2runs]
        · right; right
          refine ⟨ip, op, ?_, hcode⟩
          cases r2 with
          | exn e2 => simp [hw3, hw2runs]
          | ok rc2 =>
            dsimp only
            split <;> simp [hw3, hw2runs]
      · rw [if_pos hc0]
        right; left
        simp [hw2runs]

end MAR
